import Mathlib

/-!
Verification of the feature-flag override-resolution core of the
`flagsmith-api` repository (files `src/features/models.py` and
`src/integrations/heap/heap.py`), as a shallow embedding in Lean 4.

Django model instances become Lean structures; nullable foreign keys become
`Option` of a primary-key `Nat`; querysets become `List`s of row structures;
raised `ValueError`/`ValidationError` become `Except` error values; Python
truthiness is made explicit where the source relies on it.
-/

namespace Flagsmith

/-- A Python runtime value as it appears in the modelled code paths:
`None`, a bool, an int, or a string. -/
inductive PyVal where
  | none
  | bool (b : Bool)
  | int (n : Int)
  | str (s : String)
deriving DecidableEq, Repr

/-- Python truthiness for the values of `PyVal`:
`None` is falsy, `False` is falsy, `0` is falsy, `""` is falsy. -/
def PyVal.truthy : PyVal → Bool
  | .none => false
  | .bool b => b
  | .int n => n != 0
  | .str s => s != ""

/-- A `FeatureSegment` row (a segment override of one feature in one
environment), from `features/models.py` class `FeatureSegment`.  Only the
fields that the modelled code paths touch are carried: the foreign keys
(as primary-key ids) and the `priority` (a `PositiveIntegerField`,
modelled as `Nat`). -/
structure FeatureSegment where
  feature : Nat
  environment : Nat
  segment : Nat
  priority : Nat
deriving DecidableEq, Repr

namespace FeatureSegment

/-- `FeatureSegment.__lt__` from the source:
`return other and self.priority > other.priority`.
The right-hand side may be `None` (the comparator is invoked on
`self.feature_segment < other.feature_segment` where `other.feature_segment`
can be null), in which case Python's `other and ...` short-circuits to a
falsy result. -/
def lt (self : FeatureSegment) (other : Option FeatureSegment) : Bool :=
  match other with
  | Option.none => false
  | some o => self.priority > o.priority

end FeatureSegment

/-- A `FeatureState` row as seen by the comparator `FeatureState.__gt__`:
feature and environment foreign keys (environment is nullable in the model),
nullable identity foreign key, and nullable segment-override reference
(carried whole, because the comparator reads its priority). -/
structure FeatureState where
  environment : Option Nat
  feature : Nat
  identity : Option Nat
  feature_segment : Option FeatureSegment
deriving DecidableEq, Repr

/-- The three `ValueError`s that `FeatureState.__gt__` can raise. -/
inductive CompError where
  | differentEnvironments
  | differentFeatures
  | differentIdentities
deriving DecidableEq, Repr

namespace FeatureState

/-- `FeatureState.__gt__` from the source, line for line:
raise on mismatched environment, then on mismatched feature; if `self` has
an identity, raise on a different non-null identity on `other`, else return
`True`; if `self` has a segment override, return
`not (other.identity or self.feature_segment < other.feature_segment)`;
otherwise (`self` is the environment default) return
`not (other.feature_segment or other.identity)`. -/
def gt (self other : FeatureState) : Except CompError Bool :=
  if self.environment ≠ other.environment then
    .error .differentEnvironments
  else if self.feature ≠ other.feature then
    .error .differentFeatures
  else
    match self.identity with
    | some i =>
      match other.identity with
      | some j => if i ≠ j then .error .differentIdentities else .ok true
      | Option.none => .ok true
    | Option.none =>
      match self.feature_segment with
      | some fs =>
        .ok (!(other.identity.isSome || fs.lt other.feature_segment))
      | Option.none =>
        .ok (!(other.feature_segment.isSome || other.identity.isSome))

/-- The successful value of a comparison, `none` when it raised. -/
def okValue : Except CompError Bool → Option Bool
  | .ok b => some b
  | .error _ => Option.none

/-- Comparability as the spec delimits it: same environment, same feature,
and not both identities non-null and different. -/
def comparable (a b : FeatureState) : Prop :=
  a.environment = b.environment ∧ a.feature = b.feature ∧
    ¬(a.identity ≠ Option.none ∧ b.identity ≠ Option.none ∧ a.identity ≠ b.identity)

/-- Whether a state is the environment default (no identity, no segment
override). -/
def isDefault (a : FeatureState) : Bool :=
  a.identity = Option.none ∧ a.feature_segment = Option.none

end FeatureState

/-- The spec's segment-override precedence: `a` outranks `b` iff `a`'s
priority is numerically smaller. -/
def segOutranksSpec (a b : FeatureSegment) : Bool :=
  a.priority < b.priority

/-- The spec's four-step reference definition of `outranks`, written from the
spec's words (`none` plays the role of `IncomparableError`):
1. incomparable if environments differ, features differ, or both identities
   are non-null and differ;
2. else if `a` has a non-null identity, `a` outranks `b`;
3. else if `a` has a segment override, `a` outranks `b` exactly when `b` has
   no identity and no segment override that itself outranks `a`'s;
4. else (`a` is the default) `a` outranks `b` exactly when `b` has neither a
   segment override nor an identity. -/
def outranksSpec (a b : FeatureState) : Option Bool :=
  if a.environment ≠ b.environment ∨ a.feature ≠ b.feature ∨
      (a.identity ≠ Option.none ∧ b.identity ≠ Option.none ∧ a.identity ≠ b.identity) then
    Option.none
  else if a.identity ≠ Option.none then
    some true
  else
    match a.feature_segment with
    | some s =>
      some (decide (b.identity = Option.none) &&
        b.feature_segment.all fun t => !segOutranksSpec t s)
    | Option.none =>
      some (decide (b.feature_segment = Option.none) && decide (b.identity = Option.none))

/-- `get_next_segment_priority` from the source: filter the `FeatureSegment`
table by `feature` (and by `feature` only — the queryset has no environment
filter), order by descending priority; return 1 when the filtered set is
empty, else the first (i.e. greatest) priority plus 1. -/
def get_next_segment_priority (db : List FeatureSegment) (feature : Nat) : Nat :=
  let feature_segments := db.filter fun fs => fs.feature == feature
  match feature_segments.map FeatureSegment.priority with
  | [] => 1
  | p :: ps => ps.foldl Nat.max p + 1

/-- The feature-state value type tags (`features/value_types.py` constants
`INTEGER`, `STRING`, `BOOLEAN`). -/
inductive FSVType where
  | INTEGER
  | STRING
  | BOOLEAN
deriving DecidableEq, Repr

/-- Modelled from the spec: `features/utils.get_value_type` is not under
`src/`.  Per the spec's string-coercion rules, a type tag is inferred from
the raw value with parse-with-fallback: boolean for case-insensitive
`true`/`false` literals, integer for decimal literals, string otherwise;
a value already carrying a runtime type keeps it. -/
def get_value_type (value : PyVal) : FSVType :=
  match value with
  | .bool _ => .BOOLEAN
  | .int _ => .INTEGER
  | .str s =>
    if s.toLower == "true" || s.toLower == "false" then .BOOLEAN
    else if (s.toInt?).isSome then .INTEGER
    else .STRING
  | .none => .STRING

/-- Modelled from the spec: `features/utils.get_boolean_from_string` is not
under `src/`.  Boolean parsing accepts case-insensitive `true`/`false`
literals; a runtime boolean passes through. -/
def get_boolean_from_string (value : PyVal) : Bool :=
  match value with
  | .str s => s.toLower == "true"
  | .bool b => b
  | _ => false

/-- Modelled from the spec: `features/utils.get_integer_from_string` is not
under `src/`.  Integer parsing accepts decimal literals; a runtime integer
passes through. -/
def get_integer_from_string (value : PyVal) : Int :=
  match value with
  | .str s => (s.toInt?).getD 0
  | .int n => n
  | _ => 0

namespace FeatureState

/-- `FeatureState.get_feature_state_key_name` from the source: the slot name
for a type tag (the source's `.get(fsv_type, "string_value")` default is
unreachable for the three-valued tag). -/
def get_feature_state_key_name (fsv_type : FSVType) : String :=
  match fsv_type with
  | .INTEGER => "integer_value"
  | .BOOLEAN => "boolean_value"
  | .STRING => "string_value"

end FeatureState

/-- The defaults dictionary built by `_get_feature_state_defaults`:
a type tag plus the coerced value stored under the matching slot name. -/
structure FeatureStateDefaults where
  type : FSVType
  key_name : String
  value : PyVal
deriving DecidableEq, Repr

/-- `FeatureState._get_feature_state_defaults` from the source, as a function
of `self.feature.initial_value` (the only datum the method reads):
`if not (self.feature.initial_value or self.feature.initial_value is False):
return None`, else infer the type, pick the slot name, and coerce the value
(boolean and integer via the string parsers, anything else stored raw). -/
def _get_feature_state_defaults (initial_value : PyVal) : Option FeatureStateDefaults :=
  if !(initial_value.truthy || initial_value == PyVal.bool false) then
    Option.none
  else
    let t := get_value_type initial_value
    let key_name := FeatureState.get_feature_state_key_name t
    some { type := t
           key_name := key_name
           value :=
             match t with
             | .BOOLEAN => .bool (get_boolean_from_string initial_value)
             | .INTEGER => .int (get_integer_from_string initial_value)
             | .STRING => initial_value }

/-- A persisted `FeatureState` row as the duplicate pre-check in
`FeatureState.save` queries it. -/
structure FeatureStateRow where
  pk : Nat
  environment : Option Nat
  feature : Nat
  identity : Option Nat
  feature_segment : Option FeatureSegment
deriving DecidableEq, Repr

/-- A `FeatureState` instance about to be saved: `pk` is `none` for a
creation and set for an update; `feature_initial_value` carries
`self.feature.initial_value` for the defaults materialization. -/
structure PendingFeatureState where
  pk : Option Nat
  environment : Option Nat
  feature : Nat
  identity : Option Nat
  feature_segment : Option FeatureSegment
  feature_initial_value : PyVal
deriving DecidableEq, Repr

/-- The `ValidationError` raised by the duplicate pre-check in
`FeatureState.save`. -/
inductive SaveError where
  | duplicateFeatureState
deriving DecidableEq, Repr

/-- The observable effects of a successful `FeatureState.save`:
the webhook dispatch (`trigger_feature_state_change_webhooks`, called
unconditionally after the write) and the defaults that
`FeatureStateValue.objects.get_or_create` would seed a missing value row
with. -/
structure SaveResult where
  webhookTriggered : Bool
  fsv_defaults : Option FeatureStateDefaults
deriving DecidableEq, Repr

/-- `FeatureState.save` from the source: raise `ValidationError` when the
instance has no pk, any `FeatureState` row exists for the same
`(environment, feature)`, and the instance has neither identity nor
feature_segment; otherwise persist, seed the value row if absent
(`get_or_create` with `_get_feature_state_defaults`), and trigger the
feature-state-change webhooks. -/
def save (db : List FeatureStateRow) (self : PendingFeatureState) : Except SaveError SaveResult :=
  if self.pk = Option.none ∧
      db.any (fun r => r.environment == self.environment && r.feature == self.feature) ∧
      ¬(self.identity.isSome || self.feature_segment.isSome) then
    .error .duplicateFeatureState
  else
    .ok { webhookTriggered := true
          fsv_defaults := _get_feature_state_defaults self.feature_initial_value }

/-- Whether a save attempt ended with the webhook dispatch fired. -/
def webhookFired (r : Except SaveError SaveResult) : Bool :=
  match r with
  | .ok res => res.webhookTriggered
  | .error _ => false

/-- A persisted `Feature` row as `Feature.validate_unique` queries it. -/
structure FeatureRow where
  pk : Nat
  name : String
  project : Nat
deriving DecidableEq, Repr

/-- A `Feature` instance being validated: `pk` is `none` for a creation. -/
structure PendingFeature where
  pk : Option Nat
  name : String
  project : Nat
deriving DecidableEq, Repr

/-- Django's `name__iexact` lookup: case-insensitive string equality,
compared character by character after lowercasing. -/
def iexact (a b : String) : Bool :=
  a.data.map Char.toLower == b.data.map Char.toLower

/-- The `ValidationError` raised by `Feature.validate_unique`. -/
inductive FeatureValidationError where
  | duplicateName
deriving DecidableEq, Repr

/-- `Feature.validate_unique` from the source: raise `ValidationError` when
another `Feature` of the same project (excluding `self` by pk) has a
case-insensitively equal name.  The inherited `super().validate_unique`
check enforces the exact `("name", "project")` pair; any exact collision is
also a case-insensitive collision, so the raise/return outcome is decided
by this check alone. -/
def validate_unique (db : List FeatureRow) (self : PendingFeature) : Except FeatureValidationError Unit :=
  if db.any fun r => r.project == self.project && iexact r.name self.name
      && some r.pk != self.pk then
    .error .duplicateName
  else
    .ok ()

/-- A `FeatureStateValue` row as `get_feature_state_value` reads it: a
nullable type tag and one nullable slot per type. -/
structure FeatureStateValueRow where
  type : Option FSVType
  boolean_value : Option Bool
  integer_value : Option Int
  string_value : Option String
deriving DecidableEq, Repr

/-- A resolved feature state as the Heap wrapper consumes it: the feature
name, the enabled flag, and the associated value row (`none` models the
`ObjectDoesNotExist` case). -/
structure ResolvedFeatureState where
  feature_name : String
  enabled : Bool
  feature_state_value : Option FeatureStateValueRow
deriving DecidableEq, Repr

/-- `FeatureState.get_feature_state_value` from the source: `None` when no
value row exists; otherwise dispatch on the type tag to the matching slot
(`type_mapping.get` yields `None` for a null tag, and a null slot yields
`None`). -/
def get_feature_state_value (fs : ResolvedFeatureState) : PyVal :=
  match fs.feature_state_value with
  | Option.none => .none
  | some v =>
    match v.type with
    | some .INTEGER => (v.integer_value.map PyVal.int).getD .none
    | some .STRING => (v.string_value.map PyVal.str).getD .none
    | some .BOOLEAN => (v.boolean_value.map PyVal.bool).getD .none
    | Option.none => .none

/-- Python dict assignment `d[k] = v` on a key-ordered association list:
replace in place when the key is present, append otherwise. -/
def dictSet (d : List (String × PyVal)) (k : String) (v : PyVal) : List (String × PyVal) :=
  if d.any fun p => p.1 == k then
    d.map fun p => if p.1 == k then (k, v) else p
  else
    d ++ [(k, v)]

/-- Python dict lookup `d.get(k)` on the association list. -/
def dictGet (d : List (String × PyVal)) (k : String) : Option PyVal :=
  (d.find? fun p => p.1 == k).map Prod.snd

/-- The payload returned by `HeapWrapper.generate_user_data`. -/
structure HeapUserData where
  app_id : String
  identity : String
  event : String
  properties : List (String × PyVal)
deriving DecidableEq, Repr

/-- The loop body of `HeapWrapper.generate_user_data`: the property stored
for one feature state, `value if (feature_state.enabled and value) else
feature_state.enabled`. -/
def heap_feature_property (fs : ResolvedFeatureState) : PyVal :=
  let value := get_feature_state_value fs
  if fs.enabled && value.truthy then value else .bool fs.enabled

/-- `HeapWrapper.generate_user_data` from the source: for each feature state,
store its `heap_feature_property` under its feature name, then wrap with the
api key, the user id and the fixed event name. -/
def generate_user_data (api_key user_id : String)
    (feature_states : List ResolvedFeatureState) : HeapUserData :=
  let feature_properties := feature_states.foldl
    (fun d fs => dictSet d fs.feature_name (heap_feature_property fs))
    []
  { app_id := api_key
    identity := user_id
    event := "Flagsmith Feature Flags"
    properties := feature_properties }

/-- Segment override with priority 1 (top precedence) for feature 1 in
environment 1. -/
def segS1 : FeatureSegment :=
  { feature := 1, environment := 1, segment := 1, priority := 1 }

/-- Segment override with priority 2 for feature 1 in environment 1. -/
def segS2 : FeatureSegment :=
  { feature := 1, environment := 1, segment := 2, priority := 2 }

/-- The feature state carrying the priority-1 segment override. -/
def stateS1 : FeatureState :=
  { environment := some 1, feature := 1, identity := Option.none,
    feature_segment := some segS1 }

/-- The feature state carrying the priority-2 segment override. -/
def stateS2 : FeatureState :=
  { environment := some 1, feature := 1, identity := Option.none,
    feature_segment := some segS2 }

/-- An environment-default feature state for feature 1 in environment 1. -/
def defaultState : FeatureState :=
  { environment := some 1, feature := 1, identity := Option.none,
    feature_segment := Option.none }

/-- An identity-override feature state for feature 1 in environment 1. -/
def identityState : FeatureState :=
  { environment := some 1, feature := 1, identity := some 1,
    feature_segment := Option.none }

/-- A persisted environment-default row for feature 1 in environment 1. -/
def defaultRow : FeatureStateRow :=
  { pk := 1, environment := some 1, feature := 1, identity := Option.none,
    feature_segment := Option.none }

/-- A persisted identity-override row for feature 1 in environment 1. -/
def identityRow : FeatureStateRow :=
  { pk := 2, environment := some 1, feature := 1, identity := some 7,
    feature_segment := Option.none }

/-- A fresh environment-default instance for feature 1 in environment 1. -/
def pendingDefaultEnv1 : PendingFeatureState :=
  { pk := Option.none, environment := some 1, feature := 1,
    identity := Option.none, feature_segment := Option.none,
    feature_initial_value := PyVal.none }

/-- A fresh environment-default instance for feature 1 in environment 2. -/
def pendingDefaultEnv2 : PendingFeatureState :=
  { pk := Option.none, environment := some 2, feature := 1,
    identity := Option.none, feature_segment := Option.none,
    feature_initial_value := PyVal.none }

/-- An already-persisted environment-default instance being saved again
(an update: `pk` is set). -/
def pendingUpdate : PendingFeatureState :=
  { pk := some 1, environment := some 1, feature := 1,
    identity := Option.none, feature_segment := Option.none,
    feature_initial_value := PyVal.none }

/-- A persisted feature named "Flag" in project 1. -/
def flagRow : FeatureRow :=
  { pk := 1, name := "Flag", project := 1 }

/-- A fresh feature named "FLAG" in project 1 (same project as `flagRow`). -/
def pendingFlagSameProject : PendingFeature :=
  { pk := Option.none, name := "FLAG", project := 1 }

/-- A fresh feature named "FLAG" in project 2 (another project). -/
def pendingFlagOtherProject : PendingFeature :=
  { pk := Option.none, name := "FLAG", project := 2 }

/-- A value row holding the string "hello". -/
def fsvHello : FeatureStateValueRow :=
  { type := some .STRING, boolean_value := Option.none,
    integer_value := Option.none, string_value := some "hello" }

/-- An enabled resolved feature state named "f" whose value is "hello". -/
def resolvedHello : ResolvedFeatureState :=
  { feature_name := "f", enabled := true, feature_state_value := some fsvHello }

end Flagsmith

namespace Flagsmith

/-- Replacing key `k` in place leaves `k` bound to the new value. -/
theorem find_replace_self (d : List (String × PyVal)) (k : String) (v : PyVal)
    (h : (d.any fun p => p.1 == k) = true) :
    ((d.map fun p => if p.1 == k then (k, v) else p).find? fun p => p.1 == k)
      = some (k, v) := by
  induction d with
  | nil => simp at h
  | cons p rest ih =>
    by_cases hp : (p.1 == k) = true
    · simp [hp, List.find?]
    · have h' : (rest.any fun p => p.1 == k) = true := by
        simpa [hp] using h
      simpa [hp, List.find?] using ih h'

/-- Appending a binding for `k` to a list without `k` makes `k` found. -/
theorem find_append_self (d : List (String × PyVal)) (k : String) (v : PyVal)
    (h : (d.any fun p => p.1 == k) = false) :
    ((d ++ [(k, v)]).find? fun p => p.1 == k) = some (k, v) := by
  induction d with
  | nil => simp [List.find?]
  | cons p rest ih =>
    have hp : (p.1 == k) = false := by
      by_contra hc
      simp [eq_true_of_ne_false hc] at h
    have h' : (rest.any fun p => p.1 == k) = false := by
      simpa [hp] using h
    simpa [hp, List.find?] using ih h'

/-- Replacing key `k` in place does not change lookups of other keys. -/
theorem find_replace_other (d : List (String × PyVal)) (k k' : String) (v : PyVal)
    (hkk : (k == k') = false) :
    ((d.map fun p => if p.1 == k then (k, v) else p).find? fun p => p.1 == k')
      = d.find? fun p => p.1 == k' := by
  induction d with
  | nil => rfl
  | cons p rest ih =>
    by_cases hp : (p.1 == k) = true
    · have hpk : p.1 = k := by simpa using hp
      have hp' : (p.1 == k') = false := by
        rw [hpk]; exact hkk
      simpa [hp, hp', hkk, List.find?] using ih
    · have hp0 : (p.1 == k) = false := by
        simpa using hp
      by_cases hp' : (p.1 == k') = true
      · simp [hp0, hp', List.find?]
      · have hp'0 : (p.1 == k') = false := by simpa using hp'
        simpa [hp0, hp'0, List.find?] using ih

/-- Appending a binding for `k` does not change lookups of other keys. -/
theorem find_append_other (d : List (String × PyVal)) (k k' : String) (v : PyVal)
    (hkk : (k == k') = false) :
    ((d ++ [(k, v)]).find? fun p => p.1 == k') = d.find? fun p => p.1 == k' := by
  induction d with
  | nil => simp [List.find?, hkk]
  | cons p rest ih =>
    by_cases hp : (p.1 == k') = true
    · simp [hp, List.find?]
    · have hp0 : (p.1 == k') = false := by simpa using hp
      simpa [hp0, List.find?] using ih

/-- Python dict assignment makes the assigned key map to the new value. -/
theorem dictGet_dictSet_self (d : List (String × PyVal)) (k : String) (v : PyVal) :
    dictGet (dictSet d k v) k = some v := by
  unfold dictSet dictGet
  by_cases h : (d.any fun p => p.1 == k) = true
  · rw [if_pos h, find_replace_self d k v h]
    rfl
  · have h0 : (d.any fun p => p.1 == k) = false := Bool.eq_false_iff.mpr h
    rw [if_neg h, find_append_self d k v h0]
    rfl

/-- Python dict assignment leaves every other key unchanged. -/
theorem dictGet_dictSet_other (d : List (String × PyVal)) (k k' : String) (v : PyVal)
    (hkk : (k == k') = false) :
    dictGet (dictSet d k v) k' = dictGet d k' := by
  unfold dictSet dictGet
  by_cases h : (d.any fun p => p.1 == k) = true
  · rw [if_pos h, find_replace_other d k k' v hkk]
  · have h0 : (d.any fun p => p.1 == k) = false := Bool.eq_false_iff.mpr h
    rw [if_neg h, find_append_other d k k' v hkk]

/-- Folding the Heap property loop over states none of which carry name `k`
does not change the entry for `k`. -/
theorem heap_fold_preserves (states : List ResolvedFeatureState)
    (acc : List (String × PyVal)) (k : String)
    (h : ∀ fs ∈ states, (fs.feature_name == k) = false) :
    dictGet (states.foldl
        (fun d fs => dictSet d fs.feature_name (heap_feature_property fs)) acc) k
      = dictGet acc k := by
  induction states generalizing acc with
  | nil => rfl
  | cons s rest ih =>
    have hs : (s.feature_name == k) = false := h s (by simp)
    have hrest : ∀ fs ∈ rest, (fs.feature_name == k) = false := by
      intro fs hfs
      exact h fs (by simp [hfs])
    simpa [List.foldl_cons,
      dictGet_dictSet_other acc s.feature_name k (heap_feature_property s) hs]
      using ih (dictSet acc s.feature_name (heap_feature_property s)) hrest

/-- Folding the Heap property loop binds each state's feature name to its
Heap property, provided the feature names are distinct. -/
theorem heap_fold_binds (states : List ResolvedFeatureState)
    (acc : List (String × PyVal)) (fs : ResolvedFeatureState)
    (hmem : fs ∈ states)
    (hnodup : (states.map ResolvedFeatureState.feature_name).Nodup) :
    dictGet (states.foldl
        (fun d g => dictSet d g.feature_name (heap_feature_property g)) acc)
        fs.feature_name
      = some (heap_feature_property fs) := by
  induction states generalizing acc with
  | nil => cases hmem
  | cons s rest ih =>
    rw [List.map_cons] at hnodup
    have hnd := List.nodup_cons.mp hnodup
    rcases List.mem_cons.mp hmem with hfs | hfs
    · subst hfs
      have hnotin : fs.feature_name ∉ rest.map ResolvedFeatureState.feature_name :=
        hnd.1
      have hall : ∀ g ∈ rest, (g.feature_name == fs.feature_name) = false := by
        intro g hg
        by_contra hc
        have : g.feature_name = fs.feature_name := by
          simpa using eq_true_of_ne_false hc
        exact hnotin (this ▸ List.mem_map_of_mem ResolvedFeatureState.feature_name hg)
      calc dictGet (rest.foldl
              (fun d g => dictSet d g.feature_name (heap_feature_property g))
              (dictSet acc fs.feature_name (heap_feature_property fs)))
              fs.feature_name
          = dictGet (dictSet acc fs.feature_name (heap_feature_property fs))
              fs.feature_name :=
            heap_fold_preserves rest _ fs.feature_name hall
        _ = some (heap_feature_property fs) := dictGet_dictSet_self _ _ _
    · exact ih _ hfs hnd.2

/-- C1: for every pair of FeatureStates, the source comparator
`FeatureState.__gt__` agrees with the spec's four-step reference definition
of `outranks`: it fails exactly when the spec says `IncomparableError`, and
otherwise returns exactly the spec's verdict. -/
theorem C1_outranks_matches_spec (a b : FeatureState) :
    FeatureState.okValue (FeatureState.gt a b) = outranksSpec a b := by
  unfold FeatureState.gt outranksSpec FeatureState.okValue
  rcases a with ⟨aenv, afeat, aid, aseg⟩
  rcases b with ⟨benv, bfeat, bid, bseg⟩
  by_cases henv : aenv = benv
  · by_cases hfeat : afeat = bfeat
    · cases aid with
      | none =>
        cases aseg with
        | none =>
          cases bid <;> cases bseg <;> simp [henv, hfeat, FeatureSegment.lt]
        | some s =>
          cases bid <;> cases bseg <;>
            simp [henv, hfeat, FeatureSegment.lt, segOutranksSpec,
              gt_iff_lt, Nat.not_lt]
      | some i =>
        cases bid with
        | none => simp [henv, hfeat]
        | some j =>
          by_cases hij : i = j
          · simp [henv, hfeat, hij]
          · simp [henv, hfeat, hij]
    · simp [henv, hfeat]
  · simp [henv]

/-- C2: segment-override comparison ranks the numerically smaller priority as
outranking (override `a` outranks override `b`, i.e. `b.__lt__(a)` holds, iff
`a.priority < b.priority`); in particular the state carrying the priority-1
override outranks the state carrying the priority-2 override and not
conversely. -/
theorem C2_segment_priority_order :
    (∀ a b : FeatureSegment,
      (FeatureSegment.lt b (some a) = true ↔ a.priority < b.priority)) ∧
    FeatureState.gt stateS1 stateS2 = Except.ok true ∧
    FeatureState.gt stateS2 stateS1 = Except.ok false := by
  refine ⟨?_, rfl, rfl⟩
  intro a b
  simp [FeatureSegment.lt]

/-- C3 (code bug): `get_next_segment_priority` filters the existing overrides
by feature only, never by environment.  With a single existing override for
feature 1 in environment 1 at priority 5, creating an override for feature 1
in environment 2 is assigned priority 6, although the (feature 1,
environment 2) group is empty and the claim requires priority 1. -/
theorem C3_priority_assignment_ignores_environment :
    get_next_segment_priority
      [{ feature := 1, environment := 1, segment := 1, priority := 5 }] 1 = 6 ∧
    List.filter (fun fs => fs.feature == 1 && fs.environment == 2)
      [({ feature := 1, environment := 1, segment := 1, priority := 5 } :
        FeatureSegment)] = [] := by
  exact ⟨rfl, rfl⟩

/-- C4 (counterexample): `outranks` as implemented is not asymmetric on every
comparable pair — an environment default compared with itself outranks in
both directions (`gt defaultState defaultState = ok true`). -/
theorem C4_counterexample_not_asymmetric :
    ¬ (∀ a b : FeatureState, FeatureState.comparable a b →
        FeatureState.gt a b = Except.ok true →
        FeatureState.gt b a ≠ Except.ok true) := by
  intro h
  exact (h defaultState defaultState ⟨rfl, rfl, fun hc => hc.1 rfl⟩ rfl) rfl

/-- C4 (amended): an environment default never outranks a non-default state;
and for comparable states, mutual outranking forces the degenerate overlap
the storage uniqueness constraints rule out for distinct rows: either both
share the same non-null identity, or neither has an identity and their
segment overrides have equal priority (in particular both defaults).
Asymmetry therefore holds for every comparable pair distinct in those
fields. -/
theorem C4_amended_asymmetry_for_distinct :
    (∀ a b : FeatureState, FeatureState.isDefault a = true →
      FeatureState.isDefault b = false →
      FeatureState.gt a b ≠ Except.ok true) ∧
    (∀ a b : FeatureState, FeatureState.comparable a b →
      FeatureState.gt a b = Except.ok true →
      FeatureState.gt b a = Except.ok true →
      (a.identity ≠ Option.none ∧ a.identity = b.identity) ∨
      (a.identity = Option.none ∧ b.identity = Option.none ∧
        a.feature_segment.map FeatureSegment.priority
          = b.feature_segment.map FeatureSegment.priority)) := by
  constructor
  · intro a b hda hdb hgt
    rcases a with ⟨aenv, afeat, aid, aseg⟩
    rcases b with ⟨benv, bfeat, bid, bseg⟩
    simp [FeatureState.isDefault] at hda hdb
    obtain ⟨hid, hseg⟩ := hda
    subst hid
    subst hseg
    by_cases henv : aenv = benv
    · by_cases hfeat : afeat = bfeat
      · simp [FeatureState.gt, henv, hfeat] at hgt
        exact hdb hgt.2 hgt.1
      · simp [FeatureState.gt, henv, hfeat] at hgt
    · simp [FeatureState.gt, henv] at hgt
  · intro a b hcomp h1 h2
    rcases a with ⟨aenv, afeat, aid, aseg⟩
    rcases b with ⟨benv, bfeat, bid, bseg⟩
    simp only [FeatureState.comparable] at hcomp
    obtain ⟨henv, hfeat, hid⟩ := hcomp
    subst henv
    subst hfeat
    cases aid with
    | some i =>
      cases bid with
      | some j =>
        have hij : i = j := by
          by_contra hne
          exact hid ⟨by simp, by simp, by simp [hne]⟩
        left
        exact ⟨by simp, by simp [hij]⟩
      | none =>
        cases bseg with
        | some t => simp [FeatureState.gt] at h2
        | none => simp [FeatureState.gt] at h2
    | none =>
      cases bid with
      | some j =>
        cases aseg with
        | some s => simp [FeatureState.gt] at h1
        | none => simp [FeatureState.gt] at h1
      | none =>
        cases aseg with
        | some s =>
          cases bseg with
          | some t =>
            simp [FeatureState.gt, FeatureSegment.lt] at h1 h2
            right
            refine ⟨rfl, rfl, ?_⟩
            have hst : s.priority = t.priority := by omega
            show some s.priority = some t.priority
            rw [hst]
          | none => simp [FeatureState.gt] at h2
        | none =>
          cases bseg with
          | some t => simp [FeatureState.gt] at h1
          | none => exact Or.inr ⟨rfl, rfl, rfl⟩

/-- C4 (witness): the amended theorem applied at concrete inputs — the
default of feature 1 does not outrank the identity override, and mutual
outranking of the priority-1 segment state with itself lands in the
equal-priority degenerate case. -/
theorem C4_amended_witness :
    FeatureState.gt defaultState identityState ≠ Except.ok true ∧
    ((stateS1.identity ≠ Option.none ∧ stateS1.identity = stateS1.identity) ∨
      (stateS1.identity = Option.none ∧ stateS1.identity = Option.none ∧
        stateS1.feature_segment.map FeatureSegment.priority
          = stateS1.feature_segment.map FeatureSegment.priority)) :=
  ⟨C4_amended_asymmetry_for_distinct.1 defaultState identityState rfl rfl,
   C4_amended_asymmetry_for_distinct.2 stateS1 stateS1
     ⟨rfl, rfl, fun hc => hc.1 rfl⟩ rfl rfl⟩

/-- C5: saving a fresh FeatureState with null identity and null segment
override fails with the duplicate validation error when an environment
default already exists for the same (environment, feature), and succeeds
(persisting, seeding the value row, firing the webhook) when no row exists
for that (environment, feature) — e.g. for a different environment. -/
theorem C5_duplicate_default_rejected :
    ∀ (db : List FeatureStateRow) (fs : PendingFeatureState),
      fs.pk = Option.none → fs.identity = Option.none →
      fs.feature_segment = Option.none →
      ((∃ r ∈ db, r.environment = fs.environment ∧ r.feature = fs.feature ∧
          r.identity = Option.none ∧ r.feature_segment = Option.none) →
        save db fs = Except.error SaveError.duplicateFeatureState) ∧
      ((∀ r ∈ db, ¬(r.environment = fs.environment ∧ r.feature = fs.feature)) →
        save db fs = Except.ok
          { webhookTriggered := true
            fsv_defaults := _get_feature_state_defaults fs.feature_initial_value }) := by
  intro db fs hpk hid hseg
  constructor
  · rintro ⟨r, hr, henv, hfeat, -, -⟩
    have hany : (db.any fun r => r.environment == fs.environment
        && r.feature == fs.feature) = true :=
      List.any_eq_true.mpr ⟨r, hr, by simp [henv, hfeat]⟩
    unfold save
    rw [if_pos ⟨hpk, hany, by simp [hid, hseg]⟩]
  · intro hnone
    have hany : (db.any fun r => r.environment == fs.environment
        && r.feature == fs.feature) = false := by
      rw [Bool.eq_false_iff]
      intro hc
      obtain ⟨r, hr, hpr⟩ := List.any_eq_true.mp hc
      simp at hpr
      exact hnone r hr ⟨hpr.1, hpr.2⟩
    unfold save
    rw [if_neg]
    rintro ⟨-, h2, -⟩
    rw [hany] at h2
    exact Bool.false_ne_true h2

/-- C5 (witness): with the default row for (environment 1, feature 1)
persisted, creating a second default for environment 1 fails and creating
one for environment 2 succeeds. -/
theorem C5_witness :
    save [defaultRow] pendingDefaultEnv1
      = Except.error SaveError.duplicateFeatureState ∧
    save [defaultRow] pendingDefaultEnv2
      = Except.ok
          { webhookTriggered := true
            fsv_defaults :=
              _get_feature_state_defaults pendingDefaultEnv2.feature_initial_value } := by
  constructor
  · exact (C5_duplicate_default_rejected [defaultRow] pendingDefaultEnv1
      rfl rfl rfl).1 ⟨defaultRow, by simp, rfl, rfl, rfl, rfl⟩
  · refine (C5_duplicate_default_rejected [defaultRow] pendingDefaultEnv2
      rfl rfl rfl).2 ?_
    intro r hr hc
    rw [List.mem_singleton] at hr
    subst hr
    exact absurd hc.1 (by decide)

/-- C6 (counterexample): the defaults materialization treats the integer `0`
as absent (it returns null), although `0` is neither null nor unset — so
"only null/unset is absent" fails. -/
theorem C6_counterexample_zero_treated_absent :
    _get_feature_state_defaults (PyVal.int 0) = Option.none ∧
    PyVal.int 0 ≠ PyVal.none := by
  exact ⟨rfl, by decide⟩

/-- C6 (amended): the defaults materialization returns null exactly when
`initial_value` is Python-falsy and not the boolean `false` (null/unset,
integer `0`, empty string); boolean `false` is the only falsy value treated
as present, yielding a boolean-typed seed; null/unset yields null. -/
theorem C6_amended_absent_iff_falsy_and_not_false :
    (∀ v : PyVal, (_get_feature_state_defaults v = Option.none ↔
      (PyVal.truthy v = false ∧ v ≠ PyVal.bool false))) ∧
    _get_feature_state_defaults PyVal.none = Option.none ∧
    _get_feature_state_defaults (PyVal.bool false)
      = some { type := FSVType.BOOLEAN, key_name := "boolean_value",
               value := PyVal.bool false } := by
  refine ⟨?_, rfl, rfl⟩
  intro v
  cases v with
  | none => simp [_get_feature_state_defaults, PyVal.truthy]
  | bool b => cases b <;> simp [_get_feature_state_defaults, PyVal.truthy]
  | int n =>
    by_cases hn : n = 0 <;>
      simp [_get_feature_state_defaults, PyVal.truthy, hn]
  | str s =>
    by_cases hs : s = "" <;>
      simp [_get_feature_state_defaults, PyVal.truthy, hs]

/-- C7 (counterexample): the webhook dispatch is also fired on updates —
saving an already-persisted FeatureState (pk set) succeeds and triggers the
webhook, contradicting "not notified on updates". -/
theorem C7_counterexample_webhook_fires_on_update :
    pendingUpdate.pk = some 1 ∧
    webhookFired (save [defaultRow] pendingUpdate) = true := by
  exact ⟨rfl, rfl⟩

/-- C7 (amended): the webhook-dispatch collaborator is notified after every
successful save of a FeatureState, creation and update alike. -/
theorem C7_amended_webhook_on_every_save :
    ∀ (db : List FeatureStateRow) (fs : PendingFeatureState) (res : SaveResult),
      save db fs = Except.ok res → res.webhookTriggered = true := by
  intro db fs res h
  unfold save at h
  split at h
  · simp at h
  · injection h with h'
    rw [← h']

/-- C7 (witness): the amended theorem applied to a concrete successful
creation. -/
theorem C7_amended_witness :
    ({ webhookTriggered := true,
       fsv_defaults := _get_feature_state_defaults PyVal.none } :
      SaveResult).webhookTriggered = true :=
  C7_amended_webhook_on_every_save [] pendingDefaultEnv1 _ rfl

/-- C8: creating a Feature fails with the duplicate-name validation error
exactly when another Feature of the same project has a case-insensitively
equal name, and always succeeds when every existing Feature belongs to a
different project. -/
theorem C8_case_insensitive_unique_per_project :
    ∀ (db : List FeatureRow) (f : PendingFeature), f.pk = Option.none →
      ((validate_unique db f = Except.error FeatureValidationError.duplicateName ↔
        ∃ r ∈ db, r.project = f.project ∧ iexact r.name f.name = true) ∧
      ((∀ r ∈ db, r.project ≠ f.project) → validate_unique db f = Except.ok ())) := by
  intro db f hpk
  constructor
  · constructor
    · intro h
      by_cases hc : (db.any fun r => r.project == f.project
          && iexact r.name f.name && some r.pk != f.pk) = true
      · obtain ⟨r, hr, hpr⟩ := List.any_eq_true.mp hc
        simp at hpr
        exact ⟨r, hr, hpr.1.1, hpr.1.2⟩
      · unfold validate_unique at h
        rw [if_neg hc] at h
        simp at h
    · rintro ⟨r, hr, hproj, hiex⟩
      unfold validate_unique
      rw [if_pos (List.any_eq_true.mpr ⟨r, hr, by simp [hproj, hiex, hpk]⟩)]
  · intro hproj
    unfold validate_unique
    rw [if_neg]
    intro hc
    obtain ⟨r, hr, hpr⟩ := List.any_eq_true.mp hc
    simp at hpr
    exact hproj r hr hpr.1.1

/-- C8 (witness): "Flag" exists in project 1 — creating "FLAG" in project 1
fails, creating "FLAG" in project 2 succeeds. -/
theorem C8_witness :
    validate_unique [flagRow] pendingFlagSameProject
      = Except.error FeatureValidationError.duplicateName ∧
    validate_unique [flagRow] pendingFlagOtherProject = Except.ok () := by
  constructor
  · exact ((C8_case_insensitive_unique_per_project [flagRow]
      pendingFlagSameProject rfl).1).mpr ⟨flagRow, by simp, rfl, by decide⟩
  · refine (C8_case_insensitive_unique_per_project [flagRow]
      pendingFlagOtherProject rfl).2 ?_
    intro r hr
    rw [List.mem_singleton] at hr
    subst hr
    decide

/-- C9: for every list of resolved FeatureStates with distinct feature names,
the generated Heap user data maps each feature name to the resolved value
when the state is enabled and the value is truthy, and to the enabled flag
otherwise. -/
theorem C9_heap_user_data_rule :
    ∀ (api_key user_id : String) (states : List ResolvedFeatureState)
      (fs : ResolvedFeatureState), fs ∈ states →
      (states.map ResolvedFeatureState.feature_name).Nodup →
      dictGet (generate_user_data api_key user_id states).properties
          fs.feature_name
        = some (if fs.enabled && (get_feature_state_value fs).truthy
            then get_feature_state_value fs
            else PyVal.bool fs.enabled) := by
  intro api_key user_id states fs hmem hnodup
  have h := heap_fold_binds states [] fs hmem hnodup
  simpa [generate_user_data, heap_feature_property] using h

/-- C9 (witness): the rule applied to a one-element list, an enabled state
with the truthy value "hello". -/
theorem C9_witness :
    dictGet (generate_user_data "key" "user" [resolvedHello]).properties
        resolvedHello.feature_name
      = some (if resolvedHello.enabled
            && (get_feature_state_value resolvedHello).truthy
          then get_feature_state_value resolvedHello
          else PyVal.bool resolvedHello.enabled) :=
  C9_heap_user_data_rule "key" "user" [resolvedHello] resolvedHello
    (by simp) (by simp)

/-- C10: for a fresh FeatureState with null identity and null segment
override, the duplicate pre-check raises exactly when any row at all exists
for the same (environment, feature) — identity overrides and segment
overrides included, not only environment defaults. -/
theorem C10_precheck_fires_on_any_existing_row :
    ∀ (db : List FeatureStateRow) (fs : PendingFeatureState),
      fs.pk = Option.none → fs.identity = Option.none →
      fs.feature_segment = Option.none →
      (save db fs = Except.error SaveError.duplicateFeatureState ↔
        ∃ r ∈ db, r.environment = fs.environment ∧ r.feature = fs.feature) := by
  intro db fs hpk hid hseg
  constructor
  · intro h
    by_cases hc : (db.any fun r => r.environment == fs.environment
        && r.feature == fs.feature) = true
    · obtain ⟨r, hr, hpr⟩ := List.any_eq_true.mp hc
      simp at hpr
      exact ⟨r, hr, hpr.1, hpr.2⟩
    · unfold save at h
      rw [if_neg] at h
      · simp at h
      · rintro ⟨-, h2, -⟩
        exact hc h2
  · rintro ⟨r, hr, henv, hfeat⟩
    unfold save
    rw [if_pos ⟨hpk, List.any_eq_true.mpr ⟨r, hr, by simp [henv, hfeat]⟩,
      by simp [hid, hseg]⟩]

/-- C10 (witness): with only an identity-override row persisted for
(environment 1, feature 1), creating the environment default still raises
the duplicate validation error. -/
theorem C10_witness :
    save [identityRow] pendingDefaultEnv1
      = Except.error SaveError.duplicateFeatureState :=
  (C10_precheck_fires_on_any_existing_row [identityRow] pendingDefaultEnv1
    rfl rfl rfl).mpr ⟨identityRow, by simp, rfl, rfl⟩

end Flagsmith
